import Mathlib

/-!
Verification of the Patient Binding, Alarm Policy, and Realtime Fanout Engine
of the patient-monitoring repository.

The repository splits into two codebases that this file embeds:

* `NurseApp` — the Android nurse application (Kotlin).  The two functions the
  claims touch, `GeneralWardEventParser.parse` and the critical-ward
  WebSocket listener, are translated directly from
  `mobile_app/NurseAlarmApp/.../parser/GeneralWardEventParser.kt` and
  `mobile_app/NurseAlarmApp/.../network/WebSocketManager.kt`.

* `Backend` — the server core (binding registry, proximity tracker, policy
  evaluator, event store, fanout hub, ingest coordinator).  The Python
  sources `backend/alarm_policy.py`, `backend/database.py` and
  `backend/main.py` are not present in the repository snapshot (only the
  SQL schema `backend/database_schema.sql`, the frontend callers and the
  progress reports that describe them survive), so these definitions are
  modelled from the specification, as marked on each definition.
-/

namespace NurseApp

/-- Vital-signs payload, translated from `data class VitalsData` in
`utils/Constants.kt`; every channel is a nullable double. -/
structure VitalsData where
  HR : Option Float
  SpO2 : Option Float
  Temp : Option Float
  BP_sys : Option Float
  BP_dia : Option Float
  RR : Option Float
  Glucose : Option Float

/-- ML prediction payload, translated from `data class PredictionData` in
`models/AlarmData.kt`. -/
structure PredictionData where
  prediction : Int
  confidence : Option Float
  risk_level : Option String
  risk_factors : Option (List String)
  recommendations : Option (List String)

/-- Alarm-decision payload, translated from `data class AlarmDecision` in
`models/AlarmData.kt`. -/
structure AlarmDecision where
  action : String
  alarm_active : Bool
  message : String
  route_to_nurse : Bool
  route_to_dashboard : Bool

/-- Critical-ward alarm message, translated from `data class AlarmData` in
`models/AlarmData.kt`. -/
structure AlarmData where
  event : String
  patient_id : Int
  patient_name : String
  patient_type : String
  vitals : VitalsData
  prediction : PredictionData
  alarm_decision : AlarmDecision
  timestamp : String

/-- General-ward event, translated from the sealed class `GeneralWardEvent`
in `models/GeneralWardEvent.kt`. -/
inductive GeneralWardEvent where
  | Connected (session_id : String) (message : String)
  | VitalsUpdate (patient_id : Int) (vitals : VitalsData)
      (mlPrediction : PredictionData)
  | AlarmTriggered (patient_id : Int) (patient_name : String)
      (band_id : String) (vitals : VitalsData)
  | Heartbeat (timestamp : String)
  | Unknown (raw : String)

/-- Result of the typed Gson parse of an `alarm_triggered` message.  The
Kotlin field `band_id` is declared `String`, but Gson can still inject a
JSON `null` into it, which is exactly what the source guards against with
`if (alarm.band_id == null)`; hence the field is an `Option` here. -/
structure AlarmTriggeredPayload where
  patient_id : Int
  patient_name : String
  band_id : Option String
  vitals : VitalsData

/-- Shape of an incoming general-ward WebSocket text frame, abstracting the
outcomes of the Gson calls that `GeneralWardEventParser.parse` performs on
the raw string: whether the top-level `fromJson` to `JsonObject` throws,
what the `event` discriminator field holds, and whether the subsequent
typed `fromJson` for the selected event type succeeds or throws. -/
inductive MessageShape where
  /-- The top-level `gson.fromJson(json, JsonObject)` throws, or any other
  exception escapes to the outer `catch (e: Exception)` handler. -/
  | malformed
  /-- Discriminator `connected`; typed parse succeeds. -/
  | connected (session_id : String) (message : String)
  /-- Discriminator `connected`; typed parse throws (outer handler). -/
  | connectedBad
  /-- Discriminator `vital_signs_update`; typed parse succeeds. -/
  | vitalsUpdate (patient_id : Int) (vitals : VitalsData)
      (mlPrediction : PredictionData)
  /-- Discriminator `vital_signs_update`; typed parse throws. -/
  | vitalsBad
  /-- Discriminator `heartbeat`; typed parse succeeds. -/
  | heartbeat (timestamp : String)
  /-- Discriminator `heartbeat`; typed parse throws. -/
  | heartbeatBad
  /-- Discriminator `alarm_triggered`; typed parse succeeds, with the
  payload possibly carrying a null `band_id`. -/
  | alarmOk (p : AlarmTriggeredPayload)
  /-- Discriminator `alarm_triggered`; the typed parse throws
  `JsonSyntaxException`, caught by the inner handler. -/
  | alarmBad
  /-- Any other discriminator value, including a missing `event` field
  (which the source defaults to the string `unknown`). -/
  | otherEvent (eventType : String)

/-- Translation of `GeneralWardEventParser.parse` from
`parser/GeneralWardEventParser.kt`.  The function takes the raw frame text
(used only to build the diagnostic strings, exactly as the Kotlin string
templates do) together with its parse shape, and mirrors the `when`
branches and both `catch` handlers of the source.  Totality of this Lean
function is the model of the source never throwing. -/
def GeneralWardEventParser.parse (raw : String) :
    MessageShape → GeneralWardEvent
  | .malformed => .Unknown ("Error parsing general event: " ++ raw)
  | .connected sid msg => .Connected sid msg
  | .connectedBad => .Unknown ("Error parsing general event: " ++ raw)
  | .vitalsUpdate pid v ml => .VitalsUpdate pid v ml
  | .vitalsBad => .Unknown ("Error parsing general event: " ++ raw)
  | .heartbeat ts => .Heartbeat ts
  | .heartbeatBad => .Unknown ("Error parsing general event: " ++ raw)
  | .alarmOk p =>
      match p.band_id with
      | none => .Unknown ("Parsed alarm with null band_id: " ++ raw)
      | some b => .AlarmTriggered p.patient_id p.patient_name b p.vitals
  | .alarmBad => .Unknown ("Failed to parse alarm: " ++ raw)
  | .otherEvent _ => .Unknown raw

/-- Recogniser for the `Unknown` constructor of `GeneralWardEvent`. -/
def GeneralWardEvent.isUnknown : GeneralWardEvent → Bool
  | .Unknown _ => true
  | _ => false

/-- A message shape is a failure when some branch of
`GeneralWardEventParser.parse` cannot produce a typed event for it:
malformed JSON, a typed parse that throws, an unknown event type, or an
`alarm_triggered` payload whose `band_id` is null. -/
def MessageShape.isFailure : MessageShape → Bool
  | .malformed => true
  | .connectedBad => true
  | .vitalsBad => true
  | .heartbeatBad => true
  | .alarmBad => true
  | .otherEvent _ => true
  | .alarmOk p => p.band_id.isNone
  | _ => false

/-- Shape of an incoming critical-ward WebSocket text frame, abstracting
the outcome of `gson.fromJson(text, AlarmData::class.java)` in
`WebSocketManager.CriticalWardListener.onMessage`. -/
inductive CriticalMessage where
  /-- The Gson parse throws; the listener logs and drops the frame. -/
  | unparseable (raw : String)
  /-- The Gson parse succeeds with this alarm payload. -/
  | parsed (alarm : AlarmData)

/-- Translation of `CriticalWardListener.onMessage` from
`network/WebSocketManager.kt`: parse the frame as `AlarmData`; emit it on
`criticalAlarmFlow` only when `patient_type == "CRITICAL"`; otherwise drop
it, and drop unparseable frames via the `catch` handler.  The returned
`Option` is the value emitted on the flow, `none` meaning nothing is
emitted for this frame. -/
def CriticalWardListener.onMessage : CriticalMessage → Option AlarmData
  | .unparseable _ => none
  | .parsed a => if a.patient_type = "CRITICAL" then some a else none

end NurseApp

namespace Backend

/-- Modelled from the spec: ward type of a patient, `GENERAL` or
`CRITICAL`, as declared by the data model of the missing backend sources
(`backend/schemas.py`) and by the `patient_type` check constraint in
`backend/database_schema.sql`. -/
inductive PatientType where
  | GENERAL
  | CRITICAL
  deriving DecidableEq, Repr

/-- Modelled from the spec: abnormality label produced by the external
classifier for the missing backend (`backend/alarm_policy.py`). -/
inductive ClassLabel where
  | NORMAL
  | ABNORMAL
  deriving DecidableEq, Repr

/-- Modelled from the spec: the classification record consumed by the
policy evaluator of the missing `backend/alarm_policy.py`: a label plus
optional confidence and free-text reasons. -/
structure Classification where
  label : ClassLabel
  confidence : Option Rat
  reasons : String
  deriving DecidableEq, Repr

/-- Modelled from the spec: the action of an alarm routing decision in the
missing `backend/alarm_policy.py`. -/
inductive AlarmAction where
  | SUPPRESS
  | PROXIMITY_ALERT
  | DASHBOARD_ALERT
  deriving DecidableEq, Repr

/-- Modelled from the spec: the alarm decision produced by the policy
evaluator of the missing `backend/alarm_policy.py`. -/
structure AlarmDecision where
  action : AlarmAction
  reason : String
  suppressed : Bool
  deriving DecidableEq, Repr

/-- Modelled from the spec: per-nurse-session proximity state kept by the
missing `backend/database.py` (the `nurse_sessions` table of
`backend/database_schema.sql`): the session id, the most recently reported
set of nearby band ids, and the report time. -/
structure ProximityEntry where
  sessionId : String
  nearbyBandIds : List String
  lastUpdateAt : Nat
  deriving DecidableEq, Repr

/-- Modelled from the spec: the proximity tracker state of the missing
backend — all registered nurse sessions plus the configured freshness
window (reference value ten seconds). -/
structure ProximityTracker where
  sessions : List ProximityEntry
  freshnessWindow : Nat
  deriving DecidableEq, Repr

/-- Modelled from the spec: staleness of one proximity report in the
missing backend; a report is stale when `now - lastUpdateAt` exceeds the
freshness window. -/
def isStale (tr : ProximityTracker) (s : ProximityEntry) (now : Nat) : Bool :=
  tr.freshnessWindow < now - s.lastUpdateAt

/-- Modelled from the spec: `IsNearby(bandId, now)` of the missing
backend proximity tracker — true iff some registered, non-stale session
reported the band among its nearby band ids. -/
def IsNearby (tr : ProximityTracker) (bandId : String) (now : Nat) : Bool :=
  tr.sessions.any (fun s => !(isStale tr s now) && decide (bandId ∈ s.nearbyBandIds))

/-- Modelled from the spec: the pure policy evaluator of the missing
`backend/alarm_policy.py`, steps 1 and 2 of the algorithm: a NORMAL
classification is suppressed for every ward; an ABNORMAL one goes to the
dashboard unconditionally for CRITICAL patients, and for GENERAL patients
is routed to a nearby nurse when one is confirmed present, to the
dashboard otherwise. -/
def evaluatePolicy (pt : PatientType) (cls : Classification)
    (tr : ProximityTracker) (boundBandId : String) (now : Nat) : AlarmDecision :=
  match cls.label with
  | .NORMAL =>
      { action := .SUPPRESS, reason := "within normal range", suppressed := true }
  | .ABNORMAL =>
      match pt with
      | .CRITICAL =>
          { action := .DASHBOARD_ALERT, reason := cls.reasons, suppressed := false }
      | .GENERAL =>
          if IsNearby tr boundBandId now then
            { action := .PROXIMITY_ALERT, reason := cls.reasons, suppressed := false }
          else
            { action := .DASHBOARD_ALERT, reason := cls.reasons, suppressed := false }

/-- Modelled from the spec: step 3 of the policy algorithm of the missing
`backend/alarm_policy.py`, the configurable debounce — a GENERAL-ward
non-suppressed decision is downgraded to SUPPRESS when fewer than `k`
consecutive abnormal readings have been observed; CRITICAL bypasses the
debounce entirely. -/
def applyDebounce (pt : PatientType) (consecutiveAbnormal k : Nat)
    (d : AlarmDecision) : AlarmDecision :=
  if pt = PatientType.GENERAL ∧ consecutiveAbnormal < k ∧
      d.action ≠ AlarmAction.SUPPRESS then
    { action := .SUPPRESS, reason := d.reason, suppressed := true }
  else d

/-- Modelled from the spec: one row of the `band_assignment` table of
`backend/database_schema.sql` as the missing `backend/database.py` uses
it; `active` stands for `released_at IS NULL`. -/
structure BandAssignment where
  bandId : String
  patientId : Nat
  active : Bool
  deriving DecidableEq, Repr

/-- Modelled from the spec: the typed failures of the binding registry of
the missing backend. -/
inductive BindError where
  | BandOccupied
  | NotBound
  deriving DecidableEq, Repr

/-- Modelled from the spec: the single physical band identifier used
throughout the missing backend (`BAND_01` in the schema comments and
progress reports). -/
def theBand : String := "BAND_01"

/-- Modelled from the spec: the binding-registry state of the missing
backend — the full `band_assignment` history; rows are never deleted, only
superseded. -/
structure RegState where
  assignments : List BandAssignment
  deriving DecidableEq, Repr

/-- Modelled from the spec: the initial registry state, with no
assignment rows. -/
def RegState.init : RegState := ⟨[]⟩

/-- Modelled from the spec: whether an active assignment already exists
for the given band in the missing backend registry. -/
def bandOccupied (st : RegState) (b : String) : Bool :=
  st.assignments.any (fun a => decide (a.bandId = b) && a.active)

/-- Modelled from the spec: whether some active assignment binds the given
patient in the missing backend registry. -/
def hasActiveFor (st : RegState) (p : Nat) : Bool :=
  st.assignments.any (fun a => decide (a.patientId = p) && a.active)

/-- Modelled from the spec: `Admit(patient)` of the missing backend
binding registry — fails with `BandOccupied` if an active assignment
already exists for the fixed band, otherwise records a new active
assignment for it. -/
def Admit (st : RegState) (p : Nat) : Except BindError RegState :=
  if bandOccupied st theBand then .error .BandOccupied
  else .ok ⟨{ bandId := theBand, patientId := p, active := true } :: st.assignments⟩

/-- Modelled from the spec: the row update performed by a successful
discharge of patient `p` — every active assignment of `p` gets
`active = false` (its `released_at` set); all other rows are untouched. -/
def releaseFor (p : Nat) (a : BandAssignment) : BandAssignment :=
  if a.patientId = p ∧ a.active = true then { a with active := false } else a

/-- Modelled from the spec: `Discharge(patientId)` of the missing backend
binding registry — fails with `NotBound` if no active assignment matches
the patient; on success flips the matching assignments to inactive. -/
def Discharge (st : RegState) (p : Nat) : Except BindError RegState :=
  if hasActiveFor st p then .ok ⟨st.assignments.map (releaseFor p)⟩
  else .error .NotBound

/-- Modelled from the spec: `Resolve(bandId)` of the missing backend
binding registry — the currently bound patient for the band, if any; the
ingest path calls this for every incoming reading. -/
def Resolve (st : RegState) (b : String) : Option Nat :=
  (st.assignments.find? (fun a => decide (a.bandId = b) && a.active)).map
    (fun a => a.patientId)

/-- Modelled from the spec: the admit and discharge requests that mutate
the missing backend registry state. -/
inductive RegOp where
  | admitReq (p : Nat)
  | dischargeReq (p : Nat)
  deriving DecidableEq, Repr

/-- Modelled from the spec: the serialized execution of one registry
request of the missing backend; a failed request leaves the state
unchanged. -/
def runOp (st : RegState) : RegOp → RegState
  | .admitReq p =>
      match Admit st p with
      | .ok st2 => st2
      | .error _ => st
  | .dischargeReq p =>
      match Discharge st p with
      | .ok st2 => st2
      | .error _ => st

/-- Modelled from the spec: execution of a sequence of registry requests
from the initial state. -/
def runOps (ops : List RegOp) : RegState :=
  ops.foldl runOp RegState.init

/-- Modelled from the spec: the number of active assignment rows for a
given band id in a registry state. -/
def activeCount (st : RegState) (b : String) : Nat :=
  (st.assignments.filter (fun a => decide (a.bandId = b) && a.active)).length

/-- Modelled from the spec: a vital reading of the missing backend — named
numeric channels (the exact channel set is configuration) plus a
timestamp. -/
structure VitalReading where
  channels : List (String × Int)
  timestamp : Nat
  deriving DecidableEq, Repr

/-- Modelled from the spec: an `alarm_events` row of the missing backend —
the append-only record of one decision, with a monotonic sequence
number. -/
structure AlarmEvent where
  seq : Nat
  patientId : Nat
  reading : VitalReading
  classification : Classification
  decision : AlarmDecision
  nurseInProximity : Bool
  deriving DecidableEq, Repr

/-- Modelled from the spec: the typed failure of the event store adapter
of the missing backend. -/
inductive StoreError where
  | StoreUnavailable
  deriving DecidableEq, Repr

/-- Modelled from the spec: `Append(event)` of the event store adapter of
the missing backend; the event list is newest-first, and the call fails
with `StoreUnavailable` when the store is down. -/
def Append (storeUp : Bool) (evs : List AlarmEvent) (e : AlarmEvent) :
    Except StoreError (List AlarmEvent) :=
  if storeUp then .ok (e :: evs) else .error .StoreUnavailable

/-- Modelled from the spec: a message delivered to an observer connection
by the fanout hub of the missing backend — either the lifecycle state (the
active patient, if any) or an alarm event. -/
inductive HubMessage where
  | lifecycle (activePatient : Option Nat)
  | alarm (e : AlarmEvent)
  deriving DecidableEq, Repr

/-- Modelled from the spec: the fanout hub state of the missing backend —
the live dashboard connections, the most recent alarm event, and the most
recent lifecycle state (the active patient, if any). -/
structure FanoutHub where
  dashboardSubs : List Nat
  lastEvent : Option AlarmEvent
  activePatient : Option Nat
  deriving DecidableEq, Repr

/-- Modelled from the spec: `Subscribe(Dashboard)` of the fanout hub of
the missing backend — registers the connection and immediately replays the
most recent lifecycle state and, when one is known, the most recent alarm
event. -/
def Subscribe (h : FanoutHub) (conn : Nat) : FanoutHub × List HubMessage :=
  (⟨conn :: h.dashboardSubs, h.lastEvent, h.activePatient⟩,
    HubMessage.lifecycle h.activePatient ::
      (match h.lastEvent with
       | some e => [HubMessage.alarm e]
       | none => []))

/-- Modelled from the spec: `Publish(event)` of the fanout hub of the
missing backend — remembers the event as most recent and delivers it to
every dashboard connection. -/
def Publish (h : FanoutHub) (e : AlarmEvent) : FanoutHub × List (Nat × HubMessage) :=
  ({ h with lastEvent := some e },
    h.dashboardSubs.map (fun c => (c, HubMessage.alarm e)))

/-- Modelled from the spec: the state the ingest pipeline of the missing
backend threads through reading cycles — the binding registry, the
proximity tracker, the durable event list (newest first) and the next
sequence number. -/
structure PipelineState where
  reg : RegState
  tracker : ProximityTracker
  events : List AlarmEvent
  nextSeq : Nat
  deriving DecidableEq, Repr

/-- Modelled from the spec: one tick of the ingest coordinator of the
missing backend (`backend/main.py`): re-resolve the band immediately
before evaluation, classify, evaluate policy, append the event, and only
then broadcast — each step short-circuiting on failure.  An unresolved
band (`BandNotAssigned`) records nothing; a failed append
(`StoreUnavailable`) aborts the tick with no broadcast and no state
change.  The returned list is what the tick hands to the fanout hub. -/
def tick (ptypeOf : Nat → PatientType) (classifier : VitalReading → Classification)
    (storeUp : Bool) (st : PipelineState) (r : VitalReading) (now : Nat) :
    PipelineState × List HubMessage :=
  match Resolve st.reg theBand with
  | none => (st, [])
  | some pid =>
      let cls := classifier r
      let nearby := IsNearby st.tracker theBand now
      let d := evaluatePolicy (ptypeOf pid) cls st.tracker theBand now
      let e : AlarmEvent := ⟨st.nextSeq, pid, r, cls, d, nearby⟩
      match Append storeUp st.events e with
      | .error _ => (st, [])
      | .ok evs => ({ st with events := evs, nextSeq := st.nextSeq + 1 },
          [HubMessage.alarm e])

/-- Modelled from the spec: a sequence of reading cycles of the missing
backend coordinator; each entry carries the reading, the current time and
whether the store is available on that tick. -/
def runTicks (ptypeOf : Nat → PatientType)
    (classifier : VitalReading → Classification) (st : PipelineState) :
    List (VitalReading × Nat × Bool) → PipelineState
  | [] => st
  | (r, now, up) :: rest =>
      runTicks ptypeOf classifier (tick ptypeOf classifier up st r now).1 rest

/-- Modelled from the spec: the alarm events recorded for one patient id,
as the history query of the missing backend returns them. -/
def eventsFor (p : Nat) (evs : List AlarmEvent) : List AlarmEvent :=
  evs.filter (fun e => decide (e.patientId = p))

end Backend

open Backend

/-- C9: `GeneralWardEventParser.parse` is total — every message shape is
mapped to some `GeneralWardEvent` (totality of the Lean translation), and
it yields the `Unknown` constructor exactly on the failure shapes:
malformed JSON, a typed parse that throws, an unknown event type, or an
`alarm_triggered` payload whose `band_id` is null. -/
theorem C9_parse_total_failures_to_Unknown (raw : String)
    (shape : NurseApp.MessageShape) :
    (NurseApp.GeneralWardEventParser.parse raw shape).isUnknown =
      shape.isFailure := by
  cases shape with
  | alarmOk p =>
      obtain ⟨pid, pname, bid, v⟩ := p
      cases bid <;> rfl
  | malformed => rfl
  | connected sid msg => rfl
  | connectedBad => rfl
  | vitalsUpdate pid v ml => rfl
  | vitalsBad => rfl
  | heartbeat ts => rfl
  | heartbeatBad => rfl
  | alarmBad => rfl
  | otherEvent t => rfl

/-- C10: the critical-ward WebSocket listener emits an alarm on
`criticalAlarmFlow` exactly when the frame parses as `AlarmData` and its
`patient_type` equals CRITICAL; frames for GENERAL patients and
unparseable frames are dropped. -/
theorem C10_critical_listener_emits_only_critical
    (m : NurseApp.CriticalMessage) (a : NurseApp.AlarmData) :
    NurseApp.CriticalWardListener.onMessage m = some a ↔
      m = NurseApp.CriticalMessage.parsed a ∧ a.patient_type = "CRITICAL" := by
  cases m with
  | unparseable r => simp [NurseApp.CriticalWardListener.onMessage]
  | parsed b =>
      by_cases h : b.patient_type = "CRITICAL"
      · simp only [NurseApp.CriticalWardListener.onMessage, if_pos h,
          Option.some_inj, NurseApp.CriticalMessage.parsed.injEq]
        constructor
        · rintro rfl
          exact ⟨rfl, h⟩
        · rintro ⟨rfl, _⟩
          rfl
      · simp only [NurseApp.CriticalWardListener.onMessage, if_neg h]
        constructor
        · rintro ⟨⟩
        · rintro ⟨heq, hc⟩
          cases heq
          exact absurd hc h

/-- C1: for a CRITICAL patient and an ABNORMAL classification the policy
evaluator decides DASHBOARD_ALERT with the classification's reasons, for
every possible proximity state, and the debounce stage never alters the
critical-path decision. -/
theorem C1_critical_abnormal_always_dashboard
    (cls : Classification) (tr : ProximityTracker) (band : String)
    (now consec k : Nat) (h : cls.label = ClassLabel.ABNORMAL) :
    evaluatePolicy PatientType.CRITICAL cls tr band now =
      { action := AlarmAction.DASHBOARD_ALERT, reason := cls.reasons,
        suppressed := false } ∧
    applyDebounce PatientType.CRITICAL consec k
        (evaluatePolicy PatientType.CRITICAL cls tr band now) =
      { action := AlarmAction.DASHBOARD_ALERT, reason := cls.reasons,
        suppressed := false } := by
  have he : evaluatePolicy PatientType.CRITICAL cls tr band now =
      { action := AlarmAction.DASHBOARD_ALERT, reason := cls.reasons,
        suppressed := false } := by
    unfold evaluatePolicy
    rw [h]
  refine ⟨he, ?_⟩
  rw [he]
  simp [applyDebounce]

/-- C1 witness: the theorem instantiated at a concrete abnormal
classification and a concrete (nurse-nearby) proximity state. -/
theorem C1_witness :
    (Classification.mk ClassLabel.ABNORMAL none "tachycardia").label =
      ClassLabel.ABNORMAL ∧
    (evaluatePolicy PatientType.CRITICAL
        ⟨ClassLabel.ABNORMAL, none, "tachycardia"⟩
        ⟨[⟨"nurse-1", ["BAND_01"], 0⟩], 10⟩ "BAND_01" 3 =
      { action := AlarmAction.DASHBOARD_ALERT, reason := "tachycardia",
        suppressed := false } ∧
    applyDebounce PatientType.CRITICAL 0 3
        (evaluatePolicy PatientType.CRITICAL
          ⟨ClassLabel.ABNORMAL, none, "tachycardia"⟩
          ⟨[⟨"nurse-1", ["BAND_01"], 0⟩], 10⟩ "BAND_01" 3) =
      { action := AlarmAction.DASHBOARD_ALERT, reason := "tachycardia",
        suppressed := false }) :=
  ⟨rfl, C1_critical_abnormal_always_dashboard
    ⟨ClassLabel.ABNORMAL, none, "tachycardia"⟩
    ⟨[⟨"nurse-1", ["BAND_01"], 0⟩], 10⟩ "BAND_01" 3 0 3 rfl⟩

/-- C3: a NORMAL classification always yields the SUPPRESS decision with
reason `within normal range`, for every ward type and every proximity
state. -/
theorem C3_normal_always_suppressed
    (pt : PatientType) (cls : Classification) (tr : ProximityTracker)
    (band : String) (now : Nat) (h : cls.label = ClassLabel.NORMAL) :
    evaluatePolicy pt cls tr band now =
      { action := AlarmAction.SUPPRESS, reason := "within normal range",
        suppressed := true } := by
  unfold evaluatePolicy
  rw [h]

/-- C3 witness: the theorem instantiated for both ward types at a concrete
normal classification. -/
theorem C3_witness :
    (Classification.mk ClassLabel.NORMAL none "ok").label =
      ClassLabel.NORMAL ∧
    evaluatePolicy PatientType.GENERAL ⟨ClassLabel.NORMAL, none, "ok"⟩
        ⟨[], 10⟩ "BAND_01" 0 =
      { action := AlarmAction.SUPPRESS, reason := "within normal range",
        suppressed := true } ∧
    evaluatePolicy PatientType.CRITICAL ⟨ClassLabel.NORMAL, none, "ok"⟩
        ⟨[], 10⟩ "BAND_01" 0 =
      { action := AlarmAction.SUPPRESS, reason := "within normal range",
        suppressed := true } :=
  ⟨rfl,
    C3_normal_always_suppressed PatientType.GENERAL
      ⟨ClassLabel.NORMAL, none, "ok"⟩ ⟨[], 10⟩ "BAND_01" 0 rfl,
    C3_normal_always_suppressed PatientType.CRITICAL
      ⟨ClassLabel.NORMAL, none, "ok"⟩ ⟨[], 10⟩ "BAND_01" 0 rfl⟩

/-- C2: for a GENERAL patient with an ABNORMAL classification, a
registered nurse session whose report contains the bound band and whose
age is within the freshness window makes the decision PROXIMITY_ALERT,
while the same inputs with every band-containing report aged past the
window (or with no report containing the band at all) make the decision
DASHBOARD_ALERT. -/
theorem C2_general_abnormal_proximity_routing
    (tr1 tr2 : ProximityTracker) (band : String) (now1 now2 : Nat)
    (cls1 cls2 : Classification) (s : ProximityEntry)
    (h1 : cls1.label = ClassLabel.ABNORMAL)
    (h2 : s ∈ tr1.sessions) (h3 : band ∈ s.nearbyBandIds)
    (h4 : now1 - s.lastUpdateAt ≤ tr1.freshnessWindow)
    (h5 : cls2.label = ClassLabel.ABNORMAL)
    (h6 : ∀ t ∈ tr2.sessions, band ∈ t.nearbyBandIds →
      tr2.freshnessWindow < now2 - t.lastUpdateAt) :
    (evaluatePolicy PatientType.GENERAL cls1 tr1 band now1).action =
      AlarmAction.PROXIMITY_ALERT ∧
    (evaluatePolicy PatientType.GENERAL cls2 tr2 band now2).action =
      AlarmAction.DASHBOARD_ALERT := by
  have hn1 : IsNearby tr1 band now1 = true := by
    unfold IsNearby
    rw [List.any_eq_true]
    refine ⟨s, h2, ?_⟩
    have hs : isStale tr1 s now1 = false := by
      unfold isStale
      simp [Nat.not_lt.mpr h4]
    simp [hs, h3]
  have hn2 : IsNearby tr2 band now2 = false := by
    unfold IsNearby
    rw [List.any_eq_false]
    intro t ht hcontra
    simp only [Bool.and_eq_true, Bool.not_eq_true', decide_eq_true_eq] at hcontra
    obtain ⟨hstale, hmem⟩ := hcontra
    have := h6 t ht hmem
    unfold isStale at hstale
    simp only [decide_eq_false_iff_not, Nat.not_lt] at hstale
    omega
  constructor
  · unfold evaluatePolicy
    rw [h1]
    simp [hn1]
  · unfold evaluatePolicy
    rw [h5]
    simp [hn2]

/-- C2 witness: the theorem instantiated at a fresh report containing the
band (five seconds old, ten-second window) and at the same report aged to
twenty-five seconds. -/
theorem C2_witness :
    (Classification.mk ClassLabel.ABNORMAL none "hr high").label =
      ClassLabel.ABNORMAL ∧
    ProximityEntry.mk "nurse-1" ["BAND_01"] 0 ∈
      (ProximityTracker.mk [⟨"nurse-1", ["BAND_01"], 0⟩] 10).sessions ∧
    "BAND_01" ∈ (ProximityEntry.mk "nurse-1" ["BAND_01"] 0).nearbyBandIds ∧
    5 - (ProximityEntry.mk "nurse-1" ["BAND_01"] 0).lastUpdateAt ≤
      (ProximityTracker.mk [⟨"nurse-1", ["BAND_01"], 0⟩] 10).freshnessWindow ∧
    (∀ t ∈ (ProximityTracker.mk [⟨"nurse-1", ["BAND_01"], 0⟩] 10).sessions,
      "BAND_01" ∈ t.nearbyBandIds →
      (ProximityTracker.mk [⟨"nurse-1", ["BAND_01"], 0⟩] 10).freshnessWindow <
        25 - t.lastUpdateAt) ∧
    (evaluatePolicy PatientType.GENERAL ⟨ClassLabel.ABNORMAL, none, "hr high"⟩
        ⟨[⟨"nurse-1", ["BAND_01"], 0⟩], 10⟩ "BAND_01" 5).action =
      AlarmAction.PROXIMITY_ALERT ∧
    (evaluatePolicy PatientType.GENERAL ⟨ClassLabel.ABNORMAL, none, "hr high"⟩
        ⟨[⟨"nurse-1", ["BAND_01"], 0⟩], 10⟩ "BAND_01" 25).action =
      AlarmAction.DASHBOARD_ALERT :=
  ⟨rfl, by decide, by decide, by decide, by decide,
    C2_general_abnormal_proximity_routing
      ⟨[⟨"nurse-1", ["BAND_01"], 0⟩], 10⟩
      ⟨[⟨"nurse-1", ["BAND_01"], 0⟩], 10⟩ "BAND_01" 5 25
      ⟨ClassLabel.ABNORMAL, none, "hr high"⟩
      ⟨ClassLabel.ABNORMAL, none, "hr high"⟩
      ⟨"nurse-1", ["BAND_01"], 0⟩
      rfl (by decide) (by decide) (by decide) rfl (by decide)⟩

/-- Helper: a band with no active assignment has an active count of
zero. -/
theorem activeCount_eq_zero_of_not_occupied (st : RegState) (b : String)
    (h : bandOccupied st b = false) : activeCount st b = 0 := by
  unfold bandOccupied at h
  unfold activeCount
  rw [List.length_eq_zero, List.filter_eq_nil_iff]
  intro a ha
  rw [List.any_eq_false] at h
  exact h a ha

/-- Helper: releasing rows for one patient can only reduce the number of
active rows of any band. -/
theorem releaseFor_filter_le (p : Nat) (b : String)
    (l : List BandAssignment) :
    ((l.map (releaseFor p)).filter
        (fun a => decide (a.bandId = b) && a.active)).length ≤
      (l.filter (fun a => decide (a.bandId = b) && a.active)).length := by
  induction l with
  | nil => simp
  | cons a t ih =>
      by_cases h : a.patientId = p ∧ a.active = true
      · have hra : releaseFor p a = { a with active := false } := by
          unfold releaseFor
          rw [if_pos h]
        by_cases hpa : (decide (a.bandId = b) && a.active) = true
        · simp only [List.map_cons, List.filter_cons, hra]
          simp [hpa]
          omega
        · simp only [List.map_cons, List.filter_cons, hra]
          simp [hpa]
          exact ih
      · have hra : releaseFor p a = a := by
          unfold releaseFor
          rw [if_neg h]
        by_cases hpa : (decide (a.bandId = b) && a.active) = true
        · simp only [List.map_cons, List.filter_cons, hra]
          simp [hpa]
          exact ih
        · simp only [List.map_cons, List.filter_cons, hra]
          simp [hpa]
          exact ih

/-- Helper: a released row is never an active row for the released
patient. -/
theorem releaseFor_not_active_for (p : Nat) (a : BandAssignment) :
    (decide ((releaseFor p a).patientId = p) && (releaseFor p a).active) =
      false := by
  unfold releaseFor
  by_cases h : a.patientId = p ∧ a.active = true
  · rw [if_pos h]
    simp
  · rw [if_neg h]
    by_cases h1 : a.patientId = p
    · have h2 : a.active = false := by
        cases hact : a.active with
        | false => rfl
        | true => exact absurd ⟨h1, hact⟩ h
      simp [h2]
    · simp [h1]

/-- Helper: after a discharge of patient `p`, no assignment row is active
for `p` any more. -/
theorem hasActiveFor_release (p : Nat) (l : List BandAssignment) :
    hasActiveFor ⟨l.map (releaseFor p)⟩ p = false := by
  unfold hasActiveFor
  rw [List.any_eq_false]
  intro a ha
  rw [List.mem_map] at ha
  obtain ⟨x, _, rfl⟩ := ha
  simp [releaseFor_not_active_for p x]

/-- Helper: one registry request preserves the one-active-assignment
invariant. -/
theorem runOp_preserves_inv (st : RegState) (op : RegOp)
    (h : ∀ b, activeCount st b ≤ 1) :
    ∀ b, activeCount (runOp st op) b ≤ 1 := by
  intro b
  cases op with
  | admitReq p =>
      simp only [runOp]
      by_cases hocc : bandOccupied st theBand = true
      · simp [Admit, hocc]
        exact h b
      · have hocc2 : bandOccupied st theBand = false :=
          Bool.eq_false_iff.mpr hocc
        simp [Admit, hocc2]
        unfold activeCount
        simp only [List.filter_cons]
        by_cases hb : theBand = b
        · subst hb
          have h0 : activeCount st theBand = 0 :=
            activeCount_eq_zero_of_not_occupied st theBand hocc2
          unfold activeCount at h0
          simp [h0]
        · simp only [decide_eq_false hb, Bool.false_and, Bool.false_eq_true,
            if_false]
          simpa [activeCount] using h b
  | dischargeReq p =>
      simp only [runOp]
      by_cases hact : hasActiveFor st p = true
      · simp only [Discharge, if_pos hact]
        unfold activeCount
        calc ((st.assignments.map (releaseFor p)).filter
                (fun a => decide (a.bandId = b) && a.active)).length ≤
              (st.assignments.filter
                (fun a => decide (a.bandId = b) && a.active)).length :=
              releaseFor_filter_le p b st.assignments
          _ ≤ 1 := h b
      · have hact2 : hasActiveFor st p = false := Bool.eq_false_iff.mpr hact
        simp only [Discharge, hact2, Bool.false_eq_true, if_false]
        exact h b

/-- Helper: the invariant holds along any fold of registry requests from
an invariant-satisfying state. -/
theorem foldl_runOp_inv (ops : List RegOp) :
    ∀ st : RegState, (∀ b, activeCount st b ≤ 1) →
      ∀ b, activeCount (ops.foldl runOp st) b ≤ 1 := by
  induction ops with
  | nil =>
      intro st h b
      exact h b
  | cons op rest ih =>
      intro st h b
      rw [List.foldl_cons]
      exact ih (runOp st op) (runOp_preserves_inv st op h) b

/-- C4: in every state reachable by any sequence of admit and discharge
requests from the initial registry state, at most one assignment row is
active per band id. -/
theorem C4_at_most_one_active_per_band (ops : List RegOp) (b : String) :
    activeCount (runOps ops) b ≤ 1 := by
  unfold runOps
  refine foldl_runOp_inv ops RegState.init ?_ b
  intro b2
  simp [activeCount, RegState.init]

/-- C5: admitting while the band is occupied fails with `BandOccupied`
and leaves the state unchanged; discharging a patient with no active
assignment fails with `NotBound` and leaves the state unchanged; and a
second discharge right after a successful one fails with `NotBound`. -/
theorem C5_occupied_admit_unbound_discharge_fail
    (st1 st2 st3 st3p : RegState) (p1 p2 p3 : Nat)
    (h1 : bandOccupied st1 theBand = true)
    (h2 : hasActiveFor st2 p2 = false)
    (h3 : Discharge st3 p3 = Except.ok st3p) :
    Admit st1 p1 = Except.error BindError.BandOccupied ∧
    runOp st1 (RegOp.admitReq p1) = st1 ∧
    Discharge st2 p2 = Except.error BindError.NotBound ∧
    runOp st2 (RegOp.dischargeReq p2) = st2 ∧
    Discharge st3p p3 = Except.error BindError.NotBound := by
  have ha : Admit st1 p1 = Except.error BindError.BandOccupied := by
    unfold Admit
    rw [if_pos h1]
  have hd2 : Discharge st2 p2 = Except.error BindError.NotBound := by
    unfold Discharge
    rw [if_neg (by simp [h2])]
  have hst3p : st3p = ⟨st3.assignments.map (releaseFor p3)⟩ := by
    unfold Discharge at h3
    by_cases hb : hasActiveFor st3 p3 = true
    · rw [if_pos hb] at h3
      simp only [Except.ok.injEq] at h3
      exact h3.symm
    · rw [if_neg hb] at h3
      simp at h3
  have hd3 : hasActiveFor st3p p3 = false := by
    rw [hst3p]
    exact hasActiveFor_release p3 st3.assignments
  refine ⟨ha, ?_, hd2, ?_, ?_⟩
  · simp [runOp, ha]
  · simp [runOp, hd2]
  · unfold Discharge
    rw [if_neg (by simp [hd3])]

/-- C5 witness: the theorem applied to an occupied band, an empty
registry, and a just-discharged patient. -/
theorem C5_witness :
    bandOccupied ⟨[⟨"BAND_01", 1, true⟩]⟩ theBand = true ∧
    hasActiveFor (⟨[]⟩ : RegState) 5 = false ∧
    Discharge ⟨[⟨"BAND_01", 7, true⟩]⟩ 7 =
      Except.ok ⟨[⟨"BAND_01", 7, false⟩]⟩ ∧
    (Admit ⟨[⟨"BAND_01", 1, true⟩]⟩ 2 =
        Except.error BindError.BandOccupied ∧
      runOp ⟨[⟨"BAND_01", 1, true⟩]⟩ (RegOp.admitReq 2) =
        ⟨[⟨"BAND_01", 1, true⟩]⟩ ∧
      Discharge (⟨[]⟩ : RegState) 5 = Except.error BindError.NotBound ∧
      runOp (⟨[]⟩ : RegState) (RegOp.dischargeReq 5) = (⟨[]⟩ : RegState) ∧
      Discharge ⟨[⟨"BAND_01", 7, false⟩]⟩ 7 =
        Except.error BindError.NotBound) :=
  ⟨by decide, by decide, by rfl,
    C5_occupied_admit_unbound_discharge_fail
      ⟨[⟨"BAND_01", 1, true⟩]⟩ (⟨[]⟩ : RegState)
      ⟨[⟨"BAND_01", 7, true⟩]⟩ ⟨[⟨"BAND_01", 7, false⟩]⟩ 2 5 7
      (by decide) (by decide) (by rfl)⟩

/-- Helper: a reading cycle never changes the binding registry. -/
theorem tick_reg_eq (po : Nat → PatientType)
    (cl : VitalReading → Classification) (up : Bool) (st : PipelineState)
    (r : VitalReading) (now : Nat) :
    (tick po cl up st r now).1.reg = st.reg := by
  rcases hres : Resolve st.reg theBand with _ | pid
  · simp [tick, hres]
  · cases up
    · simp [tick, hres, Backend.Append]
    · simp [tick, hres, Backend.Append]

/-- Helper: the band never resolves to a patient with no active
assignment. -/
theorem resolve_ne_of_not_active (st : RegState) (p pid : Nat)
    (hp : hasActiveFor st p = false) (hres : Resolve st theBand = some pid) :
    pid ≠ p := by
  unfold Resolve at hres
  rw [Option.map_eq_some'] at hres
  obtain ⟨a, hfind, hpid⟩ := hres
  have hmem := List.mem_of_find?_eq_some hfind
  have hpred := List.find?_some hfind
  simp only [Bool.and_eq_true, decide_eq_true_eq] at hpred
  intro hcontra
  unfold hasActiveFor at hp
  rw [List.any_eq_false] at hp
  have hnot := hp a hmem
  simp only [Bool.and_eq_true, decide_eq_true_eq, not_and] at hnot
  exact hnot (by rw [hpid, hcontra]) hpred.2

/-- Helper: a reading cycle appends no event for a patient with no active
assignment, because the band is re-resolved immediately before
evaluation. -/
theorem tick_eventsFor_eq (po : Nat → PatientType)
    (cl : VitalReading → Classification) (up : Bool) (st : PipelineState)
    (r : VitalReading) (now : Nat) (p : Nat)
    (hp : hasActiveFor st.reg p = false) :
    eventsFor p (tick po cl up st r now).1.events = eventsFor p st.events := by
  rcases hres : Resolve st.reg theBand with _ | pid
  · simp [tick, hres]
  · have hne : pid ≠ p := resolve_ne_of_not_active st.reg p pid hp hres
    cases up
    · simp [tick, hres, Backend.Append]
    · simp only [tick, hres, Backend.Append, if_true]
      unfold eventsFor
      rw [List.filter_cons]
      simp [hne]

/-- Helper: across any sequence of reading cycles, the recorded events of
a patient with no active assignment never change. -/
theorem runTicks_eventsFor_eq (po : Nat → PatientType)
    (cl : VitalReading → Classification)
    (ticks : List (VitalReading × Nat × Bool)) :
    ∀ (st : PipelineState) (p : Nat), hasActiveFor st.reg p = false →
      eventsFor p (runTicks po cl st ticks).events = eventsFor p st.events := by
  induction ticks with
  | nil =>
      intro st p hp
      rfl
  | cons t rest ih =>
      intro st p hp
      obtain ⟨r, now, up⟩ := t
      have hreg := tick_reg_eq po cl up st r now
      simp only [runTicks]
      rw [ih (tick po cl up st r now).1 p (by rw [hreg]; exact hp)]
      exact tick_eventsFor_eq po cl up st r now p hp

/-- C6: once a patient is discharged, no further alarm event is ever
recorded for that patient id across any subsequent reading cycles — the
band is re-resolved immediately before evaluation on every tick, so the
patient's recorded events stay exactly what they were at discharge
time. -/
theorem C6_discharge_stops_patient_events (po : Nat → PatientType)
    (cl : VitalReading → Classification) (regPre reg2 : RegState) (p : Nat)
    (tr : ProximityTracker) (evs : List AlarmEvent) (sq : Nat)
    (hd : Discharge regPre p = Except.ok reg2)
    (ticks : List (VitalReading × Nat × Bool)) :
    eventsFor p (runTicks po cl ⟨reg2, tr, evs, sq⟩ ticks).events =
      eventsFor p evs := by
  have hreg2 : reg2 = ⟨regPre.assignments.map (releaseFor p)⟩ := by
    unfold Discharge at hd
    by_cases hb : hasActiveFor regPre p = true
    · rw [if_pos hb] at hd
      simp only [Except.ok.injEq] at hd
      exact hd.symm
    · rw [if_neg hb] at hd
      simp at hd
  have hp : hasActiveFor reg2 p = false := by
    rw [hreg2]
    exact hasActiveFor_release p regPre.assignments
  exact runTicks_eventsFor_eq po cl ticks ⟨reg2, tr, evs, sq⟩ p hp

/-- C6 witness: the theorem applied to a concrete discharge followed by
one reading cycle with the store available. -/
theorem C6_witness :
    Discharge ⟨[⟨"BAND_01", 1, true⟩]⟩ 1 =
      Except.ok ⟨[⟨"BAND_01", 1, false⟩]⟩ ∧
    eventsFor 1 (runTicks (fun _ => PatientType.GENERAL)
        (fun _ => ⟨ClassLabel.ABNORMAL, none, "hr high"⟩)
        ⟨⟨[⟨"BAND_01", 1, false⟩]⟩, ⟨[], 10⟩, [], 0⟩
        [(⟨[], 0⟩, 0, true)]).events = eventsFor 1 [] :=
  ⟨by rfl,
    C6_discharge_stops_patient_events (fun _ => PatientType.GENERAL)
      (fun _ => ⟨ClassLabel.ABNORMAL, none, "hr high"⟩)
      ⟨[⟨"BAND_01", 1, true⟩]⟩ ⟨[⟨"BAND_01", 1, false⟩]⟩ 1 ⟨[], 10⟩ [] 0
      (by rfl) [(⟨[], 0⟩, 0, true)]⟩

/-- C7: every message a reading cycle hands to the fanout hub is an alarm
for an event that has been durably appended to the store, and a cycle with
the store unavailable broadcasts nothing and leaves the pipeline state
unchanged. -/
theorem C7_no_broadcast_without_durable_append (po : Nat → PatientType)
    (cl : VitalReading → Classification) (up : Bool)
    (st1 st2 : PipelineState) (r1 r2 : VitalReading) (now1 now2 : Nat)
    (m : HubMessage)
    (hm : m ∈ (tick po cl up st1 r1 now1).2) :
    (∃ ev, m = HubMessage.alarm ev ∧
      ev ∈ (tick po cl up st1 r1 now1).1.events) ∧
    tick po cl false st2 r2 now2 = (st2, []) := by
  constructor
  · rcases hres : Resolve st1.reg theBand with _ | pid
    · simp [tick, hres] at hm
    · cases up
      · simp [tick, hres, Backend.Append] at hm
      · simp [tick, hres, Backend.Append] at hm
        refine ⟨_, hm, ?_⟩
        simp [tick, hres, Backend.Append]
  · rcases hres2 : Resolve st2.reg theBand with _ | pid2
    · simp [tick, hres2]
    · simp [tick, hres2, Backend.Append]

/-- C7 witness: the theorem applied to a concrete bound patient, an
available store and the alarm message that cycle broadcasts. -/
theorem C7_witness :
    HubMessage.alarm
        ⟨0, 1, ⟨[], 0⟩, ⟨ClassLabel.ABNORMAL, none, "hr high"⟩,
          ⟨AlarmAction.DASHBOARD_ALERT, "hr high", false⟩, false⟩ ∈
      (tick (fun _ => PatientType.GENERAL)
        (fun _ => ⟨ClassLabel.ABNORMAL, none, "hr high"⟩) true
        ⟨⟨[⟨"BAND_01", 1, true⟩]⟩, ⟨[], 10⟩, [], 0⟩ ⟨[], 0⟩ 0).2 ∧
    ((∃ ev, HubMessage.alarm
        ⟨0, 1, ⟨[], 0⟩, ⟨ClassLabel.ABNORMAL, none, "hr high"⟩,
          ⟨AlarmAction.DASHBOARD_ALERT, "hr high", false⟩, false⟩ =
          HubMessage.alarm ev ∧
      ev ∈ (tick (fun _ => PatientType.GENERAL)
        (fun _ => ⟨ClassLabel.ABNORMAL, none, "hr high"⟩) true
        ⟨⟨[⟨"BAND_01", 1, true⟩]⟩, ⟨[], 10⟩, [], 0⟩ ⟨[], 0⟩ 0).1.events) ∧
    tick (fun _ => PatientType.GENERAL)
        (fun _ => ⟨ClassLabel.ABNORMAL, none, "hr high"⟩) false
        ⟨⟨[⟨"BAND_01", 1, true⟩]⟩, ⟨[], 10⟩, [], 0⟩ ⟨[], 0⟩ 0 =
      (⟨⟨[⟨"BAND_01", 1, true⟩]⟩, ⟨[], 10⟩, [], 0⟩, [])) :=
  ⟨by decide,
    C7_no_broadcast_without_durable_append (fun _ => PatientType.GENERAL)
      (fun _ => ⟨ClassLabel.ABNORMAL, none, "hr high"⟩) true
      ⟨⟨[⟨"BAND_01", 1, true⟩]⟩, ⟨[], 10⟩, [], 0⟩
      ⟨⟨[⟨"BAND_01", 1, true⟩]⟩, ⟨[], 10⟩, [], 0⟩ ⟨[], 0⟩ ⟨[], 0⟩ 0 0
      (HubMessage.alarm
        ⟨0, 1, ⟨[], 0⟩, ⟨ClassLabel.ABNORMAL, none, "hr high"⟩,
          ⟨AlarmAction.DASHBOARD_ALERT, "hr high", false⟩, false⟩)
      (by decide)⟩

/-- C8: a new dashboard subscription immediately receives the most recent
lifecycle state (the active patient, if any) and the most recent alarm
event known at subscription time. -/
theorem C8_subscribe_replays_latest (h : FanoutHub) (conn : Nat)
    (e : AlarmEvent) (hlast : h.lastEvent = some e) :
    HubMessage.lifecycle h.activePatient ∈ (Subscribe h conn).2 ∧
    HubMessage.alarm e ∈ (Subscribe h conn).2 := by
  unfold Subscribe
  rw [hlast]
  constructor
  · exact List.mem_cons_self _ _
  · simp

/-- C8 witness: the theorem applied to a hub with a known active patient
and a known last alarm event. -/
theorem C8_witness :
    (FanoutHub.mk [] (some ⟨0, 1, ⟨[], 0⟩, ⟨ClassLabel.NORMAL, none, "ok"⟩,
        ⟨AlarmAction.SUPPRESS, "within normal range", true⟩, false⟩)
      (some 1)).lastEvent =
      some ⟨0, 1, ⟨[], 0⟩, ⟨ClassLabel.NORMAL, none, "ok"⟩,
        ⟨AlarmAction.SUPPRESS, "within normal range", true⟩, false⟩ ∧
    (HubMessage.lifecycle (FanoutHub.mk [] (some ⟨0, 1, ⟨[], 0⟩,
        ⟨ClassLabel.NORMAL, none, "ok"⟩,
        ⟨AlarmAction.SUPPRESS, "within normal range", true⟩, false⟩)
        (some 1)).activePatient ∈
      (Subscribe (FanoutHub.mk [] (some ⟨0, 1, ⟨[], 0⟩,
        ⟨ClassLabel.NORMAL, none, "ok"⟩,
        ⟨AlarmAction.SUPPRESS, "within normal range", true⟩, false⟩)
        (some 1)) 0).2 ∧
    HubMessage.alarm ⟨0, 1, ⟨[], 0⟩, ⟨ClassLabel.NORMAL, none, "ok"⟩,
        ⟨AlarmAction.SUPPRESS, "within normal range", true⟩, false⟩ ∈
      (Subscribe (FanoutHub.mk [] (some ⟨0, 1, ⟨[], 0⟩,
        ⟨ClassLabel.NORMAL, none, "ok"⟩,
        ⟨AlarmAction.SUPPRESS, "within normal range", true⟩, false⟩)
        (some 1)) 0).2) :=
  ⟨rfl,
    C8_subscribe_replays_latest
      (FanoutHub.mk [] (some ⟨0, 1, ⟨[], 0⟩, ⟨ClassLabel.NORMAL, none, "ok"⟩,
        ⟨AlarmAction.SUPPRESS, "within normal range", true⟩, false⟩)
        (some 1)) 0
      ⟨0, 1, ⟨[], 0⟩, ⟨ClassLabel.NORMAL, none, "ok"⟩,
        ⟨AlarmAction.SUPPRESS, "within normal range", true⟩, false⟩ rfl⟩
